import Mathlib

/-!
Verification development for `codemap.py`, an interactive terminal browser
showing per-entry line-count statistics.

The embedding below is a shallow model of the navigation/state engine:
`FileStats` (the counter record), the stats cache (`count_file_lines`),
directory scanning (`scan_directory`), the ignore-file editor
(`add_to_ignore_file`) and the key-driven state transitions of the main
loop (`handle_key`).  External collaborators (the `scc` child process, the
filesystem, `curses`) are modelled as explicit parameters: an `Env` of
fixed collaborator behaviour and an association-list filesystem `FS`
threaded through the state.
-/

/-- The four counters of `FileStats` in `codemap.py` (all Python ints,
always non-negative in this program). -/
structure FileStats where
  lines : Nat := 0
  code_lines : Nat := 0
  blank_lines : Nat := 0
  comment_lines : Nat := 0
deriving DecidableEq, Repr

/-- `FileStats()` — the all-zero record produced by the default field values. -/
def FileStats.zero : FileStats := {}

/-- `FileStats.add`: elementwise sum.  The Python method mutates `self`;
the fold in `count_file_lines` is modelled with this pure version. -/
def FileStats.add (a b : FileStats) : FileStats :=
  { lines := a.lines + b.lines
    code_lines := a.code_lines + b.code_lines
    blank_lines := a.blank_lines + b.blank_lines
    comment_lines := a.comment_lines + b.comment_lines }

/-- Result of one `scc` invocation, as observed by `count_file_lines`:
`failure` covers a non-zero return code or empty standard output
(`call_result.returncode == 0 and call_result.stdout.strip()` false);
`success recs` is a parsed JSON array of per-language records, each
carrying the four counters. -/
inductive CountOutcome where
  | failure
  | success (recs : List FileStats)
deriving DecidableEq, Repr

/-- `self.stats_cache : Dict[str, FileStats]`, as an association list;
the most recent binding for a key shadows older ones. -/
abbrev Cache := List (String × FileStats)

/-- One row of `self.entries : List[Tuple[str, FileStats]]`.  The second
component is an `Option` because the render loop tests `stats is None`;
in this variant of the program the scanner always supplies a value. -/
abbrev Entry := String × Option FileStats

/-- The filesystem contents visible to the ignore-file editor: path to
file contents. -/
abbrev FS := List (String × String)

/-- Overwrite (or create) the file at `p` with contents `c`. -/
def fsWrite (fs : FS) (p c : String) : FS := (p, c) :: fs

/-- Fixed behaviour of the external collaborators: the `scc` counter, the
directory listing (`os.scandir` basenames in filesystem order), `pathlib`
parent/join/`is_dir`, and whether opening the given path for reading or
appending succeeds (a failed open raises `OSError` in Python). -/
structure Env where
  counter : String → CountOutcome
  children : String → List String
  parent : String → String
  join : String → String → String
  isDir : String → Bool
  readOk : String → Bool
  appendOk : String → Bool

/-- `CodeMap.count_file_lines`: return the cached stats for the path if
present; otherwise invoke the counter, fold all returned per-language
records into one aggregate, and — only when the invocation succeeded
(return code 0 and non-empty output) — store the aggregate in the cache.
The `Bool` records whether the collaborator was invoked. -/
def count_file_lines (counter : String → CountOutcome) (cache : Cache)
    (path : String) : FileStats × Cache × Bool :=
  match cache.lookup path with
  | some s => (s, cache, false)
  | none =>
    match counter path with
    | .failure => (FileStats.zero, cache, true)
    | .success recs =>
        let result := recs.foldl FileStats.add FileStats.zero
        (result, (path, result) :: cache, true)

/-- Sort key of `self.entries.sort(key=lambda x: x[1].code_lines, ...)`.
At the point the sort runs every entry carries a value (the ".." row is
inserted only afterwards), so the `getD 0` default is never consulted. -/
def entryKey (e : Entry) : Nat := (e.2.map FileStats.code_lines).getD 0

/-- Insert `e` into a descending-sorted list, before the first element
whose key is `≤` its own (i.e. after exactly the strictly greater ones). -/
def insertDesc (e : Entry) : List Entry → List Entry
  | [] => [e]
  | x :: xs => if entryKey x ≤ entryKey e then e :: x :: xs else x :: insertDesc e xs

/-- `list.sort(key=lambda x: x[1].code_lines, reverse=True)`: Python's
sort is stable, so the program's sort is the unique permutation that is
descending in `entryKey` and keeps the original relative order of
equal-key entries.  This structural insertion sort computes exactly that
permutation. -/
def sortDesc (l : List Entry) : List Entry := l.foldr insertDesc []

/-- The body of the scan loop: for each child basename in filesystem
order, look up or compute its stats and emit `(name, stats)`; the cache
is threaded through the loop. -/
def scan_children (env : Env) (path : String) : Cache → List String → List Entry × Cache
  | cache, [] => ([], cache)
  | cache, name :: rest =>
      let r := count_file_lines env.counter cache (env.join path name)
      let tail := scan_children env path r.2.1 rest
      ((name, some r.1) :: tail.1, tail.2)

/-- `self.entries` as built before the sort: the "." aggregate row for
the directory itself, then one row per direct child. -/
def scan_entries_unsorted (env : Env) (cache : Cache) (path : String) :
    List Entry × Cache :=
  let r := count_file_lines env.counter cache path
  let ch := scan_children env path r.2.1 (env.children path)
  (((".", some r.1) : Entry) :: ch.1, ch.2)

/-- `CodeMap.scan_directory`: build the unsorted entry list, sort the
whole list (the "." row included) descending by `code_lines`, then — if
the path is not the filesystem root (`path != path.parent`) — insert a
`("..", FileStats())` row at the front. -/
def scan_directory (env : Env) (cache : Cache) (path : String) :
    List Entry × Cache :=
  let u := scan_entries_unsorted env cache path
  let sorted := sortDesc u.1
  if path ≠ env.parent path then ((("..", some FileStats.zero) : Entry) :: sorted, u.2)
  else (sorted, u.2)

/-- The ASCII whitespace characters removed by Python's `str.strip()`. -/
def pyIsSpace (c : Char) : Bool :=
  c = ' ' ∨ c = '\t' ∨ c = '\n' ∨ c = '\r' ∨ c = '\x0b' ∨ c = '\x0c'

/-- `str.strip()`: the string with leading and trailing whitespace
removed. -/
def pyStrip (s : String) : String :=
  String.mk (((s.data.dropWhile pyIsSpace).reverse.dropWhile pyIsSpace).reverse)

/-- Whether the string ends with a newline character (the check performed
on the last byte of the ignore file before appending). -/
def endsNewline (s : String) : Bool := s.data.getLast? = some '\n'

/-- Split a character list at every newline; every segment is returned,
including a trailing empty segment when the input ends with a newline. -/
def splitNewlines (acc : List Char) : List Char → List String
  | [] => [String.mk acc.reverse]
  | c :: cs =>
      if c = '\n' then String.mk acc.reverse :: splitNewlines [] cs
      else splitNewlines (c :: acc) cs

/-- Model of `f.readlines()` with the line terminators removed: the
maximal newline-separated segments of the contents, without the trailing
empty segment when the contents end in a newline, and empty for the
empty file. -/
def pyReadlines (s : String) : List String :=
  if s.data = [] then []
  else if endsNewline s then (splitNewlines [] s.data).dropLast
  else splitNewlines [] s.data

/-- `[line.strip() for line in f.readlines()]`: every line with leading
and trailing whitespace removed. -/
def readlines_stripped (s : String) : List String :=
  (pyReadlines s).map pyStrip

/-- The three messages `add_to_ignore_file` can return, keyed by the item
name interpolated into the corresponding Python f-string:
`cannotAdd` for "Cannot add ... to .ignore file", `alreadyPresent` for
"... is already in .ignore file", `added` for "Added ... to .ignore file". -/
inductive IgnoreOutcome where
  | cannotAdd (item : String)
  | alreadyPresent (item : String)
  | added (item : String)
deriving DecidableEq, Repr

/-- The tail of `add_to_ignore_file` from the `open(ignore_path, 'a+')`
onwards: if the open fails the `OSError` propagates (`Except.error`,
carrying the untouched state); otherwise the file gains a separating
newline when it is non-empty and does not already end in one, then the
item and a newline, after which the cache is emptied
(`self.stats_cache = \x7b\x7d`) and the directory rescanned. -/
def append_ignore (env : Env) (fs : FS) (cache : Cache) (entries : List Entry)
    (current_path ignore_path item_name : String) :
    Except (FS × Cache × List Entry) (IgnoreOutcome × FS × Cache × List Entry) :=
  if env.appendOk ignore_path then
    let old := (fs.lookup ignore_path).getD ""
    let pre := if old ≠ "" ∧ ¬ endsNewline old then old ++ "\n" else old
    let fs2 := fsWrite fs ignore_path (pre ++ item_name ++ "\n")
    let sc := scan_directory env ([] : Cache) current_path
    .ok (.added item_name, fs2, sc.2, sc.1)
  else
    .error (fs, cache, entries)

/-- `CodeMap.add_to_ignore_file`.  Rejects "." and ".."; if the ignore
file `current_path/.ignore` exists it is opened for reading (a failed
open propagates as `Except.error` with the untouched state) and, when
`item_name` equals one of its whitespace-stripped lines, the
already-present outcome is returned with no mutation; otherwise the item
is appended (see `append_ignore`).  The mutated filesystem, cache and
entry list are returned alongside the outcome. -/
def add_to_ignore_file (env : Env) (fs : FS) (cache : Cache) (entries : List Entry)
    (current_path item_name : String) :
    Except (FS × Cache × List Entry) (IgnoreOutcome × FS × Cache × List Entry) :=
  if item_name = "." ∨ item_name = ".." then
    .ok (.cannotAdd item_name, fs, cache, entries)
  else
    let ignore_path := env.join current_path ".ignore"
    match fs.lookup ignore_path with
    | some contents =>
        if env.readOk ignore_path then
          if item_name ∈ readlines_stripped contents then
            .ok (.alreadyPresent item_name, fs, cache, entries)
          else
            append_ignore env fs cache entries current_path ignore_path item_name
        else
          .error (fs, cache, entries)
    | none => append_ignore env fs cache entries current_path ignore_path item_name

/-- The mutable fields of `CodeMap` together with the filesystem and the
status-line locals of `run`; one value of this type is the state of one
iteration of the main loop. -/
structure ProgState where
  current_path : String
  scroll_position : Int
  selected_index : Nat
  entries : List Entry
  stats_cache : Cache
  fs : FS
  status_message : Option IgnoreOutcome
  status_timeout : Nat
deriving DecidableEq, Repr

/-- Outcome of handling one key event in `run`: `broke` exits the loop
(`break`), `cont` continues with the new state, `raised` is an unhandled
exception escaping the loop (the carried state is the state at the point
of the raise). -/
inductive StepResult where
  | broke (s : ProgState)
  | cont (s : ProgState)
  | raised (s : ProgState)
deriving DecidableEq, Repr

/-- `curses.KEY_UP`. -/
def KEY_UP : Nat := 259
/-- `curses.KEY_DOWN`. -/
def KEY_DOWN : Nat := 258
/-- `curses.KEY_ENTER`. -/
def KEY_ENTER : Nat := 343

/-- The `elif` chain handling one key event in `CodeMap.run`.  `height`
is the terminal height from `getmaxyx`; the viewport shows
`entries[scroll_position : scroll_position + height - 4]`.  Integer
arithmetic on the scroll position follows Python (no truncation), so
`scroll_position` is an `Int`; `selected_index` starts at 0 and is only
decremented under a positivity guard, hence a `Nat`. -/
def handle_key (env : Env) (height : Int) (s : ProgState) (key : Nat) : StepResult :=
  if key = 113 then
    .broke s
  else if key = 99 ∧ (key &&& 0x1f) ≠ 0 then
    .broke s
  else if key = KEY_UP ∧ s.selected_index > 0 then
    let sel := s.selected_index - 1
    let scroll := if (sel : Int) < s.scroll_position then (sel : Int) else s.scroll_position
    .cont { s with selected_index := sel, scroll_position := scroll }
  else if key = KEY_DOWN ∧ (s.selected_index : Int) < (s.entries.length : Int) - 1 then
    let sel := s.selected_index + 1
    let scroll :=
      if (sel : Int) ≥ s.scroll_position + height - 4 then (sel : Int) - (height - 5)
      else s.scroll_position
    .cont { s with selected_index := sel, scroll_position := scroll }
  else if key = KEY_ENTER ∨ key = 10 ∨ key = 13 then
    if s.selected_index < s.entries.length then
      let name := (s.entries.getD s.selected_index ("", none)).1
      let newPath :=
        if name = ".." then env.parent s.current_path
        else
          let np := env.join s.current_path name
          if env.isDir np then np else s.current_path
      let sc := scan_directory env s.stats_cache newPath
      .cont { s with current_path := newPath, entries := sc.1, stats_cache := sc.2,
                     selected_index := 0, scroll_position := 0 }
    else .cont s
  else if key = 105 then
    if s.selected_index < s.entries.length then
      let name := (s.entries.getD s.selected_index ("", none)).1
      match add_to_ignore_file env s.fs s.stats_cache s.entries s.current_path name with
      | .ok (msg, fs2, c2, es2) =>
          .cont { s with fs := fs2, stats_cache := c2, entries := es2,
                         status_message := some msg, status_timeout := 30 }
      | .error (fs2, c2, es2) =>
          .raised { s with fs := fs2, stats_cache := c2, entries := es2 }
    else .cont s
  else
    .cont s

/-- A sequence of `count_file_lines` calls threading the cache, returning
the final cache and the log of paths for which the counting collaborator
was actually invoked. -/
def run_gets (counter : String → CountOutcome) : Cache → List String → Cache × List String
  | cache, [] => (cache, [])
  | cache, p :: ps =>
      let r := count_file_lines counter cache p
      let rest := run_gets counter r.2.1 ps
      (rest.1, (if r.2.2 then [p] else []) ++ rest.2)

instance {α β : Type} [DecidableEq α] [DecidableEq β] : DecidableEq (Except α β) :=
  fun a b =>
    match a, b with
    | .ok x, .ok y =>
        if h : x = y then isTrue (h ▸ rfl) else isFalse fun hh => h (Except.ok.inj hh)
    | .error x, .error y =>
        if h : x = y then isTrue (h ▸ rfl) else isFalse fun hh => h (Except.error.inj hh)
    | .ok _, .error _ => isFalse fun h => Except.noConfusion h
    | .error _, .ok _ => isFalse fun h => Except.noConfusion h

instance : DecidableEq (FS × Cache × List Entry) := inferInstance

instance : DecidableEq (IgnoreOutcome × FS × Cache × List Entry) := inferInstance

/-- The outcome reported by `add_to_ignore_file`, or `none` when the call
raised. -/
def outcomeOf (r : Except (FS × Cache × List Entry) (IgnoreOutcome × FS × Cache × List Entry)) :
    Option IgnoreOutcome :=
  match r with
  | .ok (o, _, _, _) => some o
  | .error _ => none

/-- The selected index after one key event, when the loop continues. -/
def contSelected (r : StepResult) : Option Nat :=
  match r with
  | .cont s => some s.selected_index
  | _ => none

/-- The entry list after one key event, when the loop continues. -/
def contEntries (r : StepResult) : Option (List Entry) :=
  match r with
  | .cont s => some s.entries
  | _ => none

/-- A concrete environment: the counting collaborator fails on every
path, directories have no children, every path is below the root "/",
and all file opens succeed. -/
def envFail : Env :=
  { counter := fun _ => .failure
    children := fun _ => []
    parent := fun _ => "/"
    join := fun p n => p ++ "/" ++ n
    isDir := fun _ => false
    readOk := fun _ => true
    appendOk := fun _ => true }

/-- A concrete environment in which the directory "/d" has one child "a"
whose own count (100 code lines) exceeds the aggregate count of "/d"
itself (5 code lines) — the situation produced in practice by an
`.ignore` file that the collaborator honours for the directory aggregate
but not for a direct invocation on the child. -/
def envBig : Env :=
  { envFail with
    counter := fun p =>
      if p = "/d" then .success [{ lines := 5, code_lines := 5 }]
      else if p = "/d/a" then .success [{ lines := 100, code_lines := 100 }]
      else .failure
    children := fun p => if p = "/d" then ["a"] else [] }

/-- A concrete environment in which the aggregate of "/d" (10 code
lines) dominates its single child "a" (4 code lines). -/
def envMax : Env :=
  { envFail with
    counter := fun p =>
      if p = "/d" then .success [{ lines := 10, code_lines := 10 }]
      else if p = "/d/a" then .success [{ lines := 4, code_lines := 4 }]
      else .failure
    children := fun p => if p = "/d" then ["a"] else [] }

/-- A concrete environment in which every open-for-reading fails
(permission denied). -/
def envNoRead : Env :=
  { envFail with readOk := fun _ => false }

/-- The descending order the scan sorts by: `a` may precede `b` when
`b`'s code-line count does not exceed `a`'s. -/
def entryGE (a b : Entry) : Prop := entryKey b ≤ entryKey a

/-- The stats-bearing rows of a scan: the whole result at the filesystem
root, the result without its leading ".." row elsewhere. -/
def statsRows (env : Env) (cache : Cache) (path : String) : List Entry :=
  if path = env.parent path then (scan_directory env cache path).1
  else (scan_directory env cache path).1.tail

/-- A loop state whose selection sits on the third row ("a") of a
three-row list; used to exercise the ignore-key handler. -/
def stateOnA : ProgState :=
  { current_path := "/d", scroll_position := 0, selected_index := 2,
    entries := [("..", some FileStats.zero), (".", some FileStats.zero),
                ("a", some FileStats.zero)],
    stats_cache := [], fs := [], status_message := none, status_timeout := 0 }

/-- A loop state with a three-row list and the middle row selected. -/
def stateMid : ProgState :=
  { stateOnA with selected_index := 1 }

/-- A loop state with a three-row list and the first row selected. -/
def stateTop : ProgState :=
  { stateOnA with selected_index := 0 }

/-- A loop state whose selection index (5) is beyond the end of its
two-row entry list — the situation an ignore-triggered rescan can leave
behind, since it shrinks `entries` without resetting the selection. -/
def stateStale : ProgState :=
  { stateOnA with
    selected_index := 5
    entries := [("..", some FileStats.zero), (".", some FileStats.zero)] }

theorem insertDesc_perm (e : Entry) (l : List Entry) :
    List.Perm (insertDesc e l) (e :: l) := by
  induction l with
  | nil => exact List.Perm.refl _
  | cons x xs ih =>
      by_cases h : entryKey x ≤ entryKey e
      · simp [insertDesc, h]
      · simpa [insertDesc, h] using (ih.cons x).trans (List.Perm.swap e x xs)

theorem sortDesc_perm (l : List Entry) : List.Perm (sortDesc l) l := by
  induction l with
  | nil => exact List.Perm.refl _
  | cons x xs ih => exact (insertDesc_perm x (sortDesc xs)).trans (ih.cons x)

theorem mem_sortDesc {a : Entry} {l : List Entry} : a ∈ sortDesc l ↔ a ∈ l :=
  (sortDesc_perm l).mem_iff

theorem mem_insertDesc {a e : Entry} {l : List Entry} :
    a ∈ insertDesc e l ↔ a = e ∨ a ∈ l := by
  rw [(insertDesc_perm e l).mem_iff, List.mem_cons]

theorem pairwise_insertDesc (e : Entry) {l : List Entry}
    (h : List.Pairwise entryGE l) : List.Pairwise entryGE (insertDesc e l) := by
  induction l with
  | nil => simp [insertDesc, entryGE]
  | cons x xs ih =>
      rcases List.pairwise_cons.mp h with ⟨hx, hxs⟩
      by_cases hc : entryKey x ≤ entryKey e
      · rw [show insertDesc e (x :: xs) = e :: x :: xs from by simp [insertDesc, hc]]
        refine List.pairwise_cons.mpr ⟨?_, h⟩
        intro y hy
        rcases List.mem_cons.mp hy with rfl | hy
        · exact hc
        · exact le_trans (hx y hy) hc
      · rw [show insertDesc e (x :: xs) = x :: insertDesc e xs from by
          simp [insertDesc, hc]]
        refine List.pairwise_cons.mpr ⟨?_, ih hxs⟩
        intro y hy
        rcases mem_insertDesc.mp hy with rfl | hy
        · exact le_of_not_le hc
        · exact hx y hy

theorem pairwise_sortDesc (l : List Entry) : List.Pairwise entryGE (sortDesc l) := by
  induction l with
  | nil => simp [sortDesc]
  | cons x xs ih => exact pairwise_insertDesc x ih

theorem sortDesc_cons_max (e : Entry) (l : List Entry)
    (h : ∀ x ∈ l, entryKey x ≤ entryKey e) :
    sortDesc (e :: l) = e :: sortDesc l := by
  show insertDesc e (sortDesc l) = e :: sortDesc l
  cases hsd : sortDesc l with
  | nil => rfl
  | cons x xs =>
      have hx : x ∈ l := mem_sortDesc.mp (hsd ▸ List.mem_cons_self x xs)
      simp [insertDesc, h x hx]

theorem scan_children_names (env : Env) (path : String) :
    ∀ (ns : List String) (cache : Cache) (e : Entry),
      e ∈ (scan_children env path cache ns).1 → e.1 ∈ ns := by
  intro ns
  induction ns with
  | nil => intro cache e h; simp [scan_children] at h
  | cons n rest ih =>
      intro cache e h
      simp only [scan_children] at h
      rcases List.mem_cons.mp h with rfl | hmem
      · exact List.mem_cons_self _ _
      · exact List.mem_cons_of_mem _ (ih _ e hmem)

theorem run_gets_invoked_once (counter : String → CountOutcome) (path : String)
    (recs : List FileStats) (hs : counter path = .success recs) :
    ∀ (ps : List String) (cache : Cache),
      ((run_gets counter cache ps).2.count path ≤ 1) ∧
      ((cache.lookup path).isSome = true → (run_gets counter cache ps).2.count path = 0) := by
  intro ps
  induction ps with
  | nil => intro cache; simp [run_gets]
  | cons p rest ih =>
      intro cache
      cases hl : cache.lookup p with
      | some s =>
          simpa [run_gets, count_file_lines, hl] using ih cache
      | none =>
          cases hcp : counter p with
          | failure =>
              by_cases hp : p = path
              · subst hp; rw [hs] at hcp; cases hcp
              · have hb : (p == path) = false := beq_eq_false_iff_ne.mpr hp
                constructor
                · simpa [run_gets, count_file_lines, hl, hcp, List.count_cons, hb]
                    using (ih cache).1
                · intro hcached
                  simpa [run_gets, count_file_lines, hl, hcp, List.count_cons, hb]
                    using (ih cache).2 hcached
          | success recs2 =>
              by_cases hp : p = path
              · subst hp
                have hcached2 :
                    (((p, recs2.foldl FileStats.add FileStats.zero) :: cache).lookup p).isSome
                      = true := by
                  simp [List.lookup]
                constructor
                · simp [run_gets, count_file_lines, hl, hcp, List.count_cons]
                  have h0 := (ih ((p, recs2.foldl FileStats.add FileStats.zero) :: cache)).2
                    hcached2
                  omega
                · intro hcached
                  rw [hl] at hcached; cases hcached
              · have hb : (p == path) = false := beq_eq_false_iff_ne.mpr hp
                have hb2 : (path == p) = false := beq_eq_false_iff_ne.mpr (Ne.symm hp)
                have hlook :
                    (((p, recs2.foldl FileStats.add FileStats.zero) :: cache).lookup path)
                      = cache.lookup path := by
                  simp [List.lookup, hb2]
                constructor
                · simpa [run_gets, count_file_lines, hl, hcp, List.count_cons, hb]
                    using (ih ((p, recs2.foldl FileStats.add FileStats.zero) :: cache)).1
                · intro hcached
                  have := (ih ((p, recs2.foldl FileStats.add FileStats.zero) :: cache)).2
                    (by rw [hlook]; exact hcached)
                  simpa [run_gets, count_file_lines, hl, hcp, List.count_cons, hb] using this


/-- Claim C1 (corrected): when the counting collaborator fails (non-zero
exit or empty output) on an uncached path, `count_file_lines` returns the
zero `FileStats` after invoking the collaborator, but leaves the cache
unchanged — the degraded result is NOT memoized, unlike the claim's
assertion that the zero Stats is stored under the path. -/
theorem c1_count_failure_zero_and_uncached (counter : String → CountOutcome)
    (cache : Cache) (path : String) (hf : counter path = .failure)
    (hc : cache.lookup path = none) :
    count_file_lines counter cache path = (FileStats.zero, cache, true) := by
  simp [count_file_lines, hc, hf]

/-- Witness for C1 at a concrete failing counter and empty cache. -/
theorem c1_count_failure_zero_and_uncached_witness :
    count_file_lines (fun _ => CountOutcome.failure) ([] : Cache) "/f" =
      (FileStats.zero, ([] : Cache), true) :=
  c1_count_failure_zero_and_uncached (fun _ => CountOutcome.failure) [] "/f" rfl rfl

/-- Counterexample for C1 as stated: after a failed invocation for "/f"
the cache does not hold the zero Stats under "/f" (nothing was stored). -/
theorem c1_cex_failure_not_memoized :
    ¬ ((count_file_lines (fun _ => CountOutcome.failure) ([] : Cache) "/f").2.1.lookup "/f"
        = some FileStats.zero) := by decide

/-- Claim C2 (corrected): across any sequence of `count_file_lines` calls
with no cache reset, a path on which the counting collaborator SUCCEEDS
is passed to the collaborator at most once; the claim's "regardless of
whether the invocation succeeded or failed" does not hold, because failed
invocations are not cached and are retried on every call. -/
theorem c2_successful_path_invoked_at_most_once (counter : String → CountOutcome)
    (path : String) (recs : List FileStats) (hs : counter path = .success recs)
    (ps : List String) (cache : Cache) :
    (run_gets counter cache ps).2.count path ≤ 1 :=
  (run_gets_invoked_once counter path recs hs ps cache).1

/-- Witness for C2: three consecutive gets for "/d" under a succeeding
counter invoke the collaborator at most once. -/
theorem c2_successful_path_invoked_at_most_once_witness :
    (run_gets envMax.counter ([] : Cache) ["/d", "/d", "/d"]).2.count "/d" ≤ 1 :=
  c2_successful_path_invoked_at_most_once envMax.counter "/d"
    [{ lines := 10, code_lines := 10 }] (by decide) ["/d", "/d", "/d"] []

/-- Counterexample for C2 as stated: two gets for the same path under an
always-failing counter invoke the collaborator twice. -/
theorem c2_cex_failing_path_reinvoked :
    ¬ ((run_gets (fun _ => CountOutcome.failure) ([] : Cache) ["p", "p"]).2.count "p" ≤ 1) := by
  decide

/-- Claim C5 (corrected): `add_to_ignore_file` CAN raise — a failed open
of the ignore file propagates as an exception instead of an outcome
message — but whenever it raises, the filesystem, stats cache and entry
list are exactly what they were before the attempted mutation; and when
both the read-open and the append-open succeed, the function is total and
returns an outcome. -/
theorem c5_ignore_io_failure_raises_state_preserved (env : Env) (fs : FS)
    (cache : Cache) (entries : List Entry) (path item : String) :
    (∀ fs2 c2 e2,
        add_to_ignore_file env fs cache entries path item = .error (fs2, c2, e2) →
          fs2 = fs ∧ c2 = cache ∧ e2 = entries) ∧
    (env.readOk (env.join path ".ignore") = true →
      env.appendOk (env.join path ".ignore") = true →
        (outcomeOf (add_to_ignore_file env fs cache entries path item)).isSome = true) := by
  constructor
  · intro fs2 c2 e2 h
    unfold add_to_ignore_file at h
    dsimp only at h
    split at h
    · cases h
    · split at h
      · split at h
        · split at h
          · cases h
          · unfold append_ignore at h
            split at h
            · cases h
            · have h2 := (Except.error.inj h).symm
              exact ⟨congrArg (fun t => t.1) h2, congrArg (fun t => t.2.1) h2,
                congrArg (fun t => t.2.2) h2⟩
        · have h2 := (Except.error.inj h).symm
          exact ⟨congrArg (fun t => t.1) h2, congrArg (fun t => t.2.1) h2,
            congrArg (fun t => t.2.2) h2⟩
      · unfold append_ignore at h
        split at h
        · cases h
        · have h2 := (Except.error.inj h).symm
          exact ⟨congrArg (fun t => t.1) h2, congrArg (fun t => t.2.1) h2,
            congrArg (fun t => t.2.2) h2⟩
  · intro hr ha
    by_cases hdot : item = "." ∨ item = ".."
    · simp [add_to_ignore_file, hdot, outcomeOf]
    · cases hfs : List.lookup (env.join path ".ignore") fs with
      | some contents =>
          by_cases hm : item ∈ readlines_stripped contents
          · simp [add_to_ignore_file, hdot, hfs, hr, hm, outcomeOf]
          · simp [add_to_ignore_file, hdot, hfs, hr, hm, append_ignore, ha, outcomeOf]
      | none =>
          simp [add_to_ignore_file, hdot, hfs, append_ignore, ha, outcomeOf]

/-- Witness for C5: with all file opens succeeding, the editor returns an
outcome for a concrete input. -/
theorem c5_ignore_io_failure_raises_state_preserved_witness :
    (outcomeOf (add_to_ignore_file envFail [("/d/.ignore", "x\n")] ([] : Cache)
        ([] : List Entry) "/d" "y")).isSome = true :=
  (c5_ignore_io_failure_raises_state_preserved envFail [("/d/.ignore", "x\n")] [] []
      "/d" "y").2 rfl rfl

/-- Counterexample for C5 as stated: when the read-open of the existing
ignore file fails, `add_to_ignore_file` raises (no outcome message is
returned) instead of returning a failure outcome. -/
theorem c5_cex_read_failure_raises :
    add_to_ignore_file envNoRead [("/d/.ignore", "x\n")] ([] : Cache)
        ([] : List Entry) "/d" "y" =
      .error ([("/d/.ignore", "x\n")], [], []) := by decide

/-- Claim C6 (corrected): the "already present" check compares `itemName`
with the WHITESPACE-STRIPPED lines of the ignore file, not with verbatim
lines: if the file exists, its read succeeds, and `itemName` equals some
stripped line, the editor returns the already-present outcome and
performs no write, no cache invalidation and no rescan. -/
theorem c6_already_present_on_stripped_line_match (env : Env) (fs : FS)
    (cache : Cache) (entries : List Entry) (path item contents : String)
    (hdot : ¬ (item = "." ∨ item = ".."))
    (hf : fs.lookup (env.join path ".ignore") = some contents)
    (hr : env.readOk (env.join path ".ignore") = true)
    (hm : item ∈ readlines_stripped contents) :
    add_to_ignore_file env fs cache entries path item =
      .ok (.alreadyPresent item, fs, cache, entries) := by
  simp [add_to_ignore_file, hdot, hf, hr, hm]

/-- Witness for C6: an ignore file whose single line is "x " (trailing
blank) already counts "x" as present, with no mutation. -/
theorem c6_already_present_on_stripped_line_match_witness :
    add_to_ignore_file envFail [("/d/.ignore", "x \n")] ([] : Cache)
        ([] : List Entry) "/d" "x" =
      .ok (.alreadyPresent "x", [("/d/.ignore", "x \n")], [], []) :=
  c6_already_present_on_stripped_line_match envFail [("/d/.ignore", "x \n")] [] []
    "/d" "x" "x \n" (by decide) rfl rfl (by decide)

/-- Counterexample for C6 as stated: the item " y" occurs VERBATIM as a
line of the ignore file, yet the editor does not return the
already-present outcome — it appends the item again — because the
comparison strips the stored line to "y" first. -/
theorem c6_cex_verbatim_line_not_detected :
    outcomeOf (add_to_ignore_file envFail [("/d/.ignore", " y\n")] ([] : Cache)
        ([] : List Entry) "/d" " y") = some (.added " y") ∧
      " y" ∈ pyReadlines " y\n" := by decide

/-- Claim C7 (code bug): pressing the plain letter key c (code 99) exits
the main loop in every state: `key == ord(c) and (key & 0x1f)` is true at
key 99 since `99 & 0x1f == 3`, although the adjacent comment says the
branch checks for the interrupt key, and the claim lists only the quit
key and the interrupt among loop-exiting keys. -/
theorem c7_plain_c_key_exits_loop (env : Env) (height : Int) (s : ProgState) :
    handle_key env height s 99 = .broke s := by
  simp [handle_key]

/-- Claim C10 (confirmed): when the selection index is at or beyond the
end of the entry list — as an ignore-triggered rescan can leave it — the
activate keys (enter) and the ignore key are no-ops: the guard
`selected_index < len(entries)` fails and the state is returned
unchanged, with no indexing, no scan and no file write. -/
theorem c10_stale_selection_guard (env : Env) (height : Int) (s : ProgState)
    (key : Nat) (hstale : s.entries.length ≤ s.selected_index)
    (hkey : key = KEY_ENTER ∨ key = 10 ∨ key = 13 ∨ key = 105) :
    handle_key env height s key = .cont s := by
  have hlt : ¬ s.selected_index < s.entries.length := Nat.not_lt.mpr hstale
  rcases hkey with rfl | rfl | rfl | rfl <;>
    simp [handle_key, KEY_ENTER, KEY_UP, KEY_DOWN, hlt]

/-- Witness for C10: a stale state (selection 5 over a two-row list)
where enter and the ignore key leave the state unchanged. -/
theorem c10_stale_selection_guard_witness :
    handle_key envFail 10 stateStale 10 = .cont stateStale ∧
    handle_key envFail 10 stateStale 105 = .cont stateStale :=
  ⟨c10_stale_selection_guard envFail 10 stateStale 10 (by decide)
      (Or.inr (Or.inl rfl)),
   c10_stale_selection_guard envFail 10 stateStale 105 (by decide)
      (Or.inr (Or.inr (Or.inr rfl)))⟩

/-- Claim C3 (corrected): only the ACTIVATE-triggered rescan resets the
selection and scroll to 0; the rescan performed inside a successful
ignore mutation leaves `selected_index` and `scroll_position` exactly as
they were (the ignore handler does not touch them). -/
theorem c3_reset_after_activate_only (env : Env) (height : Int) :
    (∀ (s : ProgState) (key : Nat), (key = KEY_ENTER ∨ key = 10 ∨ key = 13) →
        s.selected_index < s.entries.length →
        ∃ s2, handle_key env height s key = .cont s2 ∧
          s2.selected_index = 0 ∧ s2.scroll_position = 0) ∧
    (∀ s s2 : ProgState, handle_key env height s 105 = .cont s2 →
        s2.selected_index = s.selected_index ∧
        s2.scroll_position = s.scroll_position) := by
  constructor
  · intro s key hkey hsel
    rcases hkey with rfl | rfl | rfl <;>
      · simp [handle_key, KEY_ENTER, KEY_UP, KEY_DOWN, hsel]
  · intro s s2 h
    simp only [handle_key, KEY_ENTER, KEY_UP, KEY_DOWN] at h
    norm_num at h
    split at h
    · split at h
      · cases h with
        | refl => exact ⟨rfl, rfl⟩
      · cases h
    · cases h with
      | refl => exact ⟨rfl, rfl⟩

/-- Witness for C3: activating (enter) the middle row of a three-row list
continues with selection and scroll reset to 0. -/
theorem c3_reset_after_activate_only_witness :
    ∃ s2, handle_key envFail 10 stateMid 10 = .cont s2 ∧
      s2.selected_index = 0 ∧ s2.scroll_position = 0 :=
  (c3_reset_after_activate_only envFail 10).1 stateMid 10 (Or.inr (Or.inl rfl))
    (by decide)

/-- Counterexample for C3 as stated: pressing the ignore key on the row
"a" of `stateOnA` performs a successful ignore mutation whose rescan
replaces the entry list (so a scan did happen), yet the selection index
stays 2 instead of being reset to 0. -/
theorem c3_cex_ignore_rescan_keeps_selection :
    contSelected (handle_key envFail 10 stateOnA 105) = some 2 ∧
      contEntries (handle_key envFail 10 stateOnA 105) ≠ some stateOnA.entries := by
  decide

/-- Claim C9 (confirmed): with non-empty entries, Move up at index 0 and
Move down at the last index are no-ops; otherwise Move up decrements the
index and pulls `scroll_position` up to it when the selection moved above
the viewport, Move down increments the index and sets `scroll_position`
to `selected_index - viewportRows + 1` (with `viewportRows = height - 4`,
the number of rows the renderer shows) when the selection moved below the
viewport, leaving entries and the current path untouched. -/
theorem c9_navigation_bounds_and_scroll (env : Env) (height : Int)
    (s : ProgState) (hne : s.entries ≠ []) :
    (s.selected_index = 0 → handle_key env height s KEY_UP = .cont s) ∧
    (s.selected_index = s.entries.length - 1 →
      handle_key env height s KEY_DOWN = .cont s) ∧
    (0 < s.selected_index →
      ∃ s2, handle_key env height s KEY_UP = .cont s2 ∧
        s2.selected_index = s.selected_index - 1 ∧
        (((s.selected_index - 1 : Nat) : Int) < s.scroll_position →
          s2.scroll_position = ((s.selected_index - 1 : Nat) : Int)) ∧
        (¬ ((s.selected_index - 1 : Nat) : Int) < s.scroll_position →
          s2.scroll_position = s.scroll_position) ∧
        s2.entries = s.entries ∧ s2.current_path = s.current_path) ∧
    ((s.selected_index : Int) < (s.entries.length : Int) - 1 →
      ∃ s2, handle_key env height s KEY_DOWN = .cont s2 ∧
        s2.selected_index = s.selected_index + 1 ∧
        (((s.selected_index + 1 : Nat) : Int) ≥ s.scroll_position + (height - 4) →
          s2.scroll_position =
            ((s.selected_index + 1 : Nat) : Int) - (height - 4) + 1) ∧
        (((s.selected_index + 1 : Nat) : Int) < s.scroll_position + (height - 4) →
          s2.scroll_position = s.scroll_position) ∧
        s2.entries = s.entries ∧ s2.current_path = s.current_path) := by
  refine ⟨?_, ?_, ?_, ?_⟩
  · intro h0
    simp [handle_key, KEY_UP, KEY_DOWN, KEY_ENTER, h0]
  · intro hlast
    have hlen : 0 < s.entries.length := List.length_pos.mpr hne
    have hnd : ¬ ((s.selected_index : Int) < (s.entries.length : Int) - 1) := by
      omega
    simp [handle_key, KEY_UP, KEY_DOWN, KEY_ENTER, hnd]
  · intro hpos
    refine ⟨{ s with
              selected_index := s.selected_index - 1
              scroll_position :=
                if ((s.selected_index - 1 : Nat) : Int) < s.scroll_position
                then ((s.selected_index - 1 : Nat) : Int) else s.scroll_position },
            ?_, rfl, ?_, ?_, rfl, rfl⟩
    · simp [handle_key, KEY_UP, KEY_DOWN, KEY_ENTER, hpos]
    · intro hc
      show (if _ then _ else _) = _
      rw [if_pos hc]
    · intro hc
      show (if _ then _ else _) = _
      rw [if_neg hc]
  · intro hsel
    refine ⟨{ s with
              selected_index := s.selected_index + 1
              scroll_position :=
                if ((s.selected_index + 1 : Nat) : Int) ≥ s.scroll_position + height - 4
                then ((s.selected_index + 1 : Nat) : Int) - (height - 5)
                else s.scroll_position },
            ?_, rfl, ?_, ?_, rfl, rfl⟩
    · simp [handle_key, KEY_UP, KEY_DOWN, KEY_ENTER, hsel]
    · intro hc
      show (if _ then _ else _) = _
      rw [if_pos (by push_cast at hc ⊢; omega)]
      push_cast
      omega
    · intro hc
      show (if _ then _ else _) = _
      rw [if_neg (by push_cast at hc ⊢; omega)]

/-- Witness for C9: Move up at the top row and Move down at the last row
of a three-row list both leave the state unchanged. -/
theorem c9_navigation_bounds_and_scroll_witness :
    handle_key envFail 10 stateTop KEY_UP = .cont stateTop ∧
    handle_key envFail 10 stateOnA KEY_DOWN = .cont stateOnA :=
  ⟨(c9_navigation_bounds_and_scroll envFail 10 stateTop (by decide)).1 rfl,
   (c9_navigation_bounds_and_scroll envFail 10 stateOnA (by decide)).2.1 (by decide)⟩

/-- Claim C4 (corrected): the scan sorts the "." aggregate row TOGETHER
with the child rows — the stats-bearing rows (all rows but the optional
leading "..") are a permutation of the unsorted ["."] ++ children list,
descending in `code_lines`, and "." is first among them whenever its
count is at least every child's; a child counted higher than the
aggregate precedes ".". -/
theorem c4_scan_sorts_dot_with_children (env : Env) (cache : Cache)
    (path : String) :
    List.Pairwise entryGE (statsRows env cache path) ∧
    List.Perm (statsRows env cache path) (scan_entries_unsorted env cache path).1 ∧
    ((∀ e ∈ (scan_entries_unsorted env cache path).1,
        entryKey e ≤ (count_file_lines env.counter cache path).1.code_lines) →
      (statsRows env cache path).head? =
        some ((".", some (count_file_lines env.counter cache path).1) : Entry)) := by
  have hrows : statsRows env cache path =
      sortDesc (scan_entries_unsorted env cache path).1 := by
    unfold statsRows scan_directory
    by_cases hroot : path = env.parent path
    · rw [if_pos hroot, if_neg (by simpa using hroot)]
    · rw [if_neg hroot, if_pos hroot]
      rfl
  refine ⟨hrows ▸ pairwise_sortDesc _, hrows ▸ sortDesc_perm _, ?_⟩
  intro hmax
  have hu : (scan_entries_unsorted env cache path).1 =
      ((".", some (count_file_lines env.counter cache path).1) : Entry) ::
        (scan_children env path
          (count_file_lines env.counter cache path).2.1 (env.children path)).1 := rfl
  rw [hrows, hu, sortDesc_cons_max]
  · rfl
  · intro x hx
    exact hmax x (hu ▸ List.mem_cons_of_mem _ hx)

/-- Witness for C4: in `envMax`, where the "." aggregate (10 code lines)
dominates the one child (4), "." heads the stats-bearing rows. -/
theorem c4_scan_sorts_dot_with_children_witness :
    (statsRows envMax ([] : Cache) "/d").head? =
      some ((".", some (count_file_lines envMax.counter ([] : Cache) "/d").1) : Entry) :=
  (c4_scan_sorts_dot_with_children envMax [] "/d").2.2 (by decide)

/-- Counterexample for C4 as stated: in `envBig` the child "a" (100 code
lines) is sorted ahead of the "." aggregate (5 code lines), so an entry
other than ".." precedes "." among the stats-bearing rows. -/
theorem c4_cex_child_precedes_dot :
    ((scan_directory envBig ([] : Cache) "/d").1.map Prod.fst) = ["..", "a", "."] ∧
      ((scan_directory envBig ([] : Cache) "/d").1.map Prod.fst).indexOf "a" <
        ((scan_directory envBig ([] : Cache) "/d").1.map Prod.fst).indexOf "." := by
  decide

/-- Claim C8 (corrected): for a non-root directory the scan's first entry
is `("..", FileStats())` — a PRESENT all-zero stats value, not an absent
one as the claim states; at the filesystem root no ".." entry is
produced. -/
theorem c8_parent_row_zero_stats (env : Env) (cache : Cache) (path : String) :
    (path ≠ env.parent path →
      (scan_directory env cache path).1.head? =
        some (("..", some FileStats.zero) : Entry)) ∧
    (path = env.parent path → ".." ∉ env.children path →
      ∀ st : Option FileStats,
        (("..", st) : Entry) ∉ (scan_directory env cache path).1) := by
  constructor
  · intro hroot
    unfold scan_directory
    rw [if_pos hroot]
    rfl
  · intro hroot hnc st hmem
    unfold scan_directory at hmem
    rw [if_neg (by simpa using hroot)] at hmem
    rcases List.mem_cons.mp (mem_sortDesc.mp hmem) with hdot | hch
    · have h1 : (".." : String) = "." := congrArg Prod.fst hdot
      exact absurd h1 (by decide)
    · exact hnc (scan_children_names env path (env.children path) _ _ hch)

/-- Witness for C8: scanning the non-root directory "/d" yields ".."
first, carrying the zero stats value. -/
theorem c8_parent_row_zero_stats_witness :
    (scan_directory envFail ([] : Cache) "/d").1.head? =
      some (("..", some FileStats.zero) : Entry) :=
  (c8_parent_row_zero_stats envFail [] "/d").1 (by decide)

/-- Counterexample for C8 as stated: the ".." row produced for the
non-root directory "/d" carries a PRESENT stats value (the zero record),
not an absent one. -/
theorem c8_cex_parent_stats_present :
    (((scan_directory envFail ([] : Cache) "/d").1.headD ("", none)).2).isSome = true ∧
      ((scan_directory envFail ([] : Cache) "/d").1.headD ("", none)).1 = ".." := by
  decide
